import Mathlib

/-!
Verification of the `ping_exporter` ICMP collector
(`internal/collector/icmp_collector.go`).

The Go code is shallowly embedded: `time.Duration` values are integer
nanoseconds (`Int`, Go int64), gauge values are exact rationals (`Rat`),
and the query string of a request is an association list of keys to the
list of values supplied for that key (Go `url.Values`).
-/

namespace PingExporter

/-- `strings.ToLower`, restricted to the ASCII letters that all the
compared parameter values ("icmp", "v6", "ip6", key names, ...) consist of. -/
def goToLower (s : String) : String := String.mk (s.toList.map Char.toLower)

/-- Result of `strconv.Atoi`: the returned `int` together with `err == nil`.
On a syntax error Go returns `(0, err)`; on a range error it returns the
value clamped to the `int64` range together with `err != nil`. -/
def goAtoi (s : String) : Int × Bool :=
  let cs := s.toList
  let signed : Bool × List Char :=
    match cs with
    | '+' :: rest => (false, rest)
    | '-' :: rest => (true, rest)
    | _ => (false, cs)
  let neg := signed.1
  let ds := signed.2
  if ds.isEmpty || !(ds.all Char.isDigit) then (0, false)
  else
    let n : Nat := ds.foldl (fun a c => a * 10 + (c.toNat - '0'.toNat)) 0
    if neg then
      if (n : Int) ≤ 2 ^ 63 then (-(n : Int), true) else (-(2 ^ 63), false)
    else
      if (n : Int) < 2 ^ 63 then ((n : Int), true) else (2 ^ 63 - 1, false)

/-- `time/format.go` `leadingInt`: consume leading decimal digits into a
`uint64`, failing (`none`) on overflow past `1<<63`. Returns the value and
the remaining characters. -/
def leadingInt : Nat → List Char → Option (Nat × List Char)
  | x, [] => some (x, [])
  | x, c :: cs =>
    if c.isDigit then
      if x > 9223372036854775808 / 10 then none
      else
        let y := x * 10 + (c.toNat - '0'.toNat)
        if y > 9223372036854775808 then none
        else leadingInt y cs
    else some (x, c :: cs)

/-- `time/format.go` `leadingFraction`: consume fractional digits, tracking
the scale; once the accumulator would overflow, further digits are consumed
without being accumulated. Returns (digits value, scale, remainder). -/
def leadingFraction : Nat → Nat → Bool → List Char → Nat × Nat × List Char
  | x, scale, _, [] => (x, scale, [])
  | x, scale, overflow, c :: cs =>
    if c.isDigit then
      if overflow then leadingFraction x scale true cs
      else if x > (9223372036854775808 - 1) / 10 then leadingFraction x scale true cs
      else
        let y := x * 10 + (c.toNat - '0'.toNat)
        if y > 9223372036854775808 then leadingFraction x scale true cs
        else leadingFraction y (scale * 10) false cs
    else (x, scale, c :: cs)

/-- The `unitMap` of `time.ParseDuration`: nanoseconds per unit. -/
def unitMap (u : String) : Option Nat :=
  if u = "ns" then some 1
  else if u = "us" then some 1000
  else if u = "µs" then some 1000
  else if u = "μs" then some 1000
  else if u = "ms" then some 1000000
  else if u = "s" then some 1000000000
  else if u = "m" then some 60000000000
  else if u = "h" then some 3600000000000
  else none

/-- A character that may start a number segment inside a duration. -/
def isDurationDigit (c : Char) : Bool := c = '.' || c.isDigit

/-- The segment loop of `time.ParseDuration`: repeatedly parse
`[0-9]*(\.[0-9]*)?unit` and accumulate nanoseconds into `d`. Each
iteration consumes at least the (nonempty) unit, so fuel equal to the
remaining length suffices. Go computes the fractional contribution in
`float64`; here it is exact rational arithmetic truncated toward zero,
which agrees on every input the collector claims depend on. -/
def parseDurationLoop : Nat → Nat → List Char → Option Nat
  | 0, _, _ => none
  | _ + 1, d, [] => some d
  | fuel + 1, d, c :: cs =>
    if !isDurationDigit c then none
    else
      match leadingInt 0 (c :: cs) with
      | none => none
      | some (v, s1) =>
        let pre := s1.length ≠ (c :: cs).length
        let fracRes : Nat × Nat × List Char × Bool :=
          match s1 with
          | '.' :: s1' =>
            let r := leadingFraction 0 1 false s1'
            (r.1, r.2.1, r.2.2, r.2.2.length ≠ s1'.length)
          | _ => (0, 1, s1, false)
        let f := fracRes.1
        let scale := fracRes.2.1
        let s2 := fracRes.2.2.1
        let post := fracRes.2.2.2
        if ¬pre ∧ ¬post then none
        else
          let u := s2.takeWhile (fun ch => !isDurationDigit ch)
          let s3 := s2.dropWhile (fun ch => !isDurationDigit ch)
          if u.isEmpty then none
          else
            match unitMap (String.mk u) with
            | none => none
            | some unit =>
              if v > 9223372036854775808 / unit then none
              else
                let v1 := v * unit
                let v2 := if f > 0 then v1 + f * unit / scale else v1
                if v2 > 9223372036854775808 then none
                else
                  let d1 := d + v2
                  if d1 > 9223372036854775808 then none
                  else parseDurationLoop fuel d1 s3

/-- `time.ParseDuration`: `[-+]?([0-9]*(\.[0-9]*)?[a-z]+)+`, with "0"
(optionally signed) accepted without a unit. Returns nanoseconds, `none`
on any parse error. -/
def parseDuration (s : String) : Option Int :=
  let cs := s.toList
  let signed : Bool × List Char :=
    match cs with
    | '-' :: rest => (true, rest)
    | '+' :: rest => (false, rest)
    | _ => (false, cs)
  let neg := signed.1
  let body := signed.2
  if body = ['0'] then some 0
  else if body = [] then none
  else
    match parseDurationLoop (body.length + 1) 0 body with
    | none => none
    | some d =>
      if neg then some (-(d : Int))
      else if (d : Int) > 2 ^ 63 - 1 then none
      else some (d : Int)

/-! ## Parameter resolver (`parseParams`) -/

/-- The struct `pingParams` of `icmp_collector.go`. -/
structure pingParams where
  target : String
  timeout : Int
  interval : Int
  count : Int
  size : Int
  ttl : Int
  protocol : String
  packet : String
deriving Repr, DecidableEq

/-- `defaultTimeout = time.Second * 10` (nanoseconds). -/
def defaultTimeout : Int := 10000000000
/-- `defaultInterval = time.Second` (nanoseconds). -/
def defaultInterval : Int := 1000000000
def defaultCount : Int := 5
def defaultSize : Int := 56
def defaultTTL : Int := 64
def defaultProtocol : String := "ip4"
def defaultPacket : String := "icmp"
def maxPacketSize : Int := 65507
def minPacketSize : Int := 24

/-- A request query, Go `url.Values`: each present key maps to the
nonempty list of values supplied for it, in order of appearance. -/
abbrev Query := List (String × List String)

/-- `url.Values.Get`: first value of the exact key, or "" when absent. -/
def valuesGet (params : Query) (key : String) : String :=
  match params.find? (fun kv => kv.1 == key) with
  | some kv => kv.2.headD ""
  | none => ""

/-- The diagnostics `parseParams` can log: `log.Errorf` on a bad timeout,
`log.Warnf` on a bad interval, and the `log.Warnf` for an illegal packet
size, which prints the `int` returned by `strconv.Atoi` (0 on a syntax
error, the clamped value on a range error). -/
inductive Diag where
  | timeoutErr (got : String)
  | intervalWarn (got : String)
  | sizeWarn (sizeVal : Int)
deriving Repr, DecidableEq

/-- One iteration of the `for k, v := range params` loop of `parseParams`:
the switch on `strings.ToLower(k)`, always reading `v[0]`. -/
def parseParamsStep (acc : pingParams × List Diag) (entry : String × List String) :
    pingParams × List Diag :=
  let p := acc.1
  let ds := acc.2
  let kl := goToLower entry.1
  let v0 := entry.2.headD ""
  if kl = "target" then ({ p with target := v0 }, ds)
  else if kl = "timeout" then
    if (parseDuration v0).isSome then ({ p with timeout := (parseDuration v0).getD 0 }, ds)
    else (p, ds ++ [Diag.timeoutErr v0])
  else if kl = "interval" then
    if (parseDuration v0).isSome then ({ p with interval := (parseDuration v0).getD 0 }, ds)
    else (p, ds ++ [Diag.intervalWarn v0])
  else if kl = "count" then
    if (goAtoi v0).2 = true ∧ 0 < (goAtoi v0).1 then ({ p with count := (goAtoi v0).1 }, ds)
    else ({ p with count := defaultCount }, ds)
  else if kl = "size" then
    if (goAtoi v0).2 = true ∧ (goAtoi v0).1 ≤ maxPacketSize ∧ minPacketSize ≤ (goAtoi v0).1 then
      ({ p with size := (goAtoi v0).1 }, ds)
    else ({ p with size := defaultSize }, ds ++ [Diag.sizeWarn (goAtoi v0).1])
  else if kl = "ttl" then
    if (goAtoi v0).2 = true then ({ p with ttl := (goAtoi v0).1 }, ds)
    else ({ p with ttl := defaultTTL }, ds)
  else if kl = "protocol" ∨ kl = "prot" then
    if goToLower v0 ≠ "" then ({ p with protocol := goToLower v0 }, ds)
    else ({ p with protocol := defaultProtocol }, ds)
  else if kl = "packet" then
    if goToLower v0 ≠ "" then ({ p with packet := goToLower v0 }, ds)
    else ({ p with packet := defaultPacket }, ds)
  else acc

/-- The initial descriptor of `parseParams`: every field at its default,
target read with `params.Get("target")`. -/
def initialParams (params : Query) : pingParams :=
  { target := valuesGet params "target"
    timeout := defaultTimeout
    interval := defaultInterval
    count := defaultCount
    size := defaultSize
    ttl := defaultTTL
    protocol := defaultProtocol
    packet := defaultPacket }

/-- `parseParams`, instrumented with the diagnostics it logs. -/
def parseParamsAux (params : Query) : pingParams × List Diag :=
  params.foldl parseParamsStep (initialParams params, [])

/-- `parseParams`: the resolved Probe Request Descriptor. -/
def parseParams (params : Query) : pingParams := (parseParamsAux params).1

/-- The diagnostics logged while resolving `params`. -/
def parseParamsDiags (params : Query) : List Diag := (parseParamsAux params).2

/-! ## Probe orchestration (`PingHandler`) -/

/-- The fields of `probing.Statistics` (and `pinger.PacketsRecv`) that the
handler reads. RTT fields are durations in nanoseconds; `packetLoss` is the
float64 percentage, modelled exactly as a rational. -/
structure Statistics where
  packetsSent : Int
  packetsRecv : Int
  packetLoss : Rat
  minRtt : Int
  avgRtt : Int
  maxRtt : Int
  stdDevRtt : Int
deriving Repr, DecidableEq

/-- `time.Duration.Seconds()`, exactly. -/
def seconds (d : Int) : Rat := (d : Rat) / 1000000000

/-- The eight gauge values of the per-request Metric Set. Gauges are
created by `prometheus.NewGauge` holding 0. -/
structure PingMetrics where
  success : Rat
  timeoutFlag : Rat
  duration : Rat
  rttMin : Rat
  rttMax : Rat
  rttAvg : Rat
  stddev : Rat
  loss : Rat
deriving Repr, DecidableEq

/-- All gauges as freshly created: value 0. -/
def initMetrics : PingMetrics :=
  { success := 0, timeoutFlag := 0, duration := 0, rttMin := 0, rttMax := 0
    rttAvg := 0, stddev := 0, loss := 0 }

/-- Result of `pinger.Run()`: either it returned an error before the run
finished (`OnFinish` never invoked, statistics left at zero), or the run
finished and `OnFinish` fired with the final statistics. `elapsed` is the
wall-clock nanoseconds `time.Since(start)` at that point. -/
inductive ProbeOutcome where
  | error (elapsed : Int)
  | finished (stats : Statistics) (elapsed : Int)
deriving Repr, DecidableEq

/-- The `pinger.OnFinish` callback: outcome classification (success if
packets were received and the timeout strictly exceeds the elapsed time,
else timeout if the elapsed time strictly exceeds the timeout, else
no-reply if no packets were received), then the unconditional statistic
gauges. `stddev` is set to `float64(stats.StdDevRtt)`: raw nanoseconds,
not seconds. -/
def onFinish (timeout : Int) (stats : Statistics) (elapsed : Int)
    (m : PingMetrics) : PingMetrics :=
  let m1 :=
    if stats.packetsRecv > 0 ∧ timeout > elapsed then
      { m with success := 1, timeoutFlag := 0 }
    else if timeout < elapsed then
      { m with timeoutFlag := 1, success := 0 }
    else if stats.packetsRecv = 0 then
      { m with success := 0, timeoutFlag := 0 }
    else m
  { m1 with
    rttMin := seconds stats.minRtt
    rttAvg := seconds stats.avgRtt
    rttMax := seconds stats.maxRtt
    stddev := (stats.stdDevRtt : Rat)
    loss := stats.packetLoss
    duration := seconds elapsed }

/-- The gauge values served by one `PingHandler` call, as a function of the
request query and the probe outcome. -/
def pingHandler (q : Query) (outcome : ProbeOutcome) : PingMetrics :=
  let p := parseParams q
  match outcome with
  | ProbeOutcome.error _ => initMetrics
  | ProbeOutcome.finished stats elapsed => onFinish p.timeout stats elapsed initMetrics

/-- The configuration `PingHandler` pushes into the fresh `probing.Pinger`. -/
structure PingerConfig where
  count : Int
  size : Int
  interval : Int
  timeout : Int
  ttl : Int
  privileged : Bool
  network : String
deriving Repr, DecidableEq

/-- Lines 185-201 of `icmp_collector.go`: copy the descriptor fields, set
privileged mode iff `p.packet == "icmp"`, select the ip6 network iff the
protocol is one of "v6", "6", "ip6". -/
def configurePinger (p : pingParams) : PingerConfig :=
  { count := p.count
    size := p.size
    interval := p.interval
    timeout := p.timeout
    ttl := p.ttl
    privileged := if p.packet = "icmp" then true else false
    network := if p.protocol = "v6" ∨ p.protocol = "6" ∨ p.protocol = "ip6"
               then "ip6" else "ip4" }

/-- What the handler writes to the HTTP response: it either serves the
exposition page of its registry or would write an error status. -/
inductive HttpResponse where
  | metricsPage (m : PingMetrics)
  | errorStatus (code : Nat)
deriving Repr, DecidableEq

/-- The full handler body: on any outcome, including a `pinger.Run()`
error (which is only logged), control reaches `serveMetricsWithError`,
which serves the registry. No path writes an HTTP error status. -/
def pingHandlerResponse (q : Query) (outcome : ProbeOutcome) : HttpResponse :=
  HttpResponse.metricsPage (pingHandler q outcome)

/-! ## Gauge store model

To state request isolation, gauge objects live in a process-wide store of
cells: `prometheus.NewGauge` allocates a fresh zero cell, `Gauge.Set`
writes a cell, and serving the registry reads the cells registered in it.
Each `PingHandler` call allocates its eight gauges and its own registry
inside the call. -/

/-- The process heap of gauge cells: an allocation bound and the value of
every cell. -/
structure GaugeStore where
  next : Nat
  val : Nat → Rat

/-- `Gauge.Set`. -/
def GaugeStore.write (h : GaugeStore) (i : Nat) (x : Rat) : GaugeStore :=
  { h with val := fun j => if j = i then x else h.val j }

/-- The cells of one request-scoped registry, in declaration order. -/
structure RegistryIds where
  success : Nat
  timeoutFlag : Nat
  duration : Nat
  rttMin : Nat
  rttMax : Nat
  rttAvg : Nat
  rttStddev : Nat
  loss : Nat
deriving Repr, DecidableEq

/-- The eight `prometheus.NewGauge` calls at the top of the handler: eight
fresh cells, each holding 0. -/
def GaugeStore.allocGauges (h : GaugeStore) : GaugeStore × RegistryIds :=
  ({ next := h.next + 8
     val := fun j => if h.next ≤ j ∧ j < h.next + 8 then 0 else h.val j },
   { success := h.next, timeoutFlag := h.next + 1, duration := h.next + 2
     rttMin := h.next + 3, rttMax := h.next + 4, rttAvg := h.next + 5
     rttStddev := h.next + 6, loss := h.next + 7 })

/-- `OnFinish` as the sequence of `Gauge.Set` writes it performs. -/
def onFinishStore (timeout : Int) (stats : Statistics) (elapsed : Int)
    (g : RegistryIds) (h : GaugeStore) : GaugeStore :=
  let h1 :=
    if stats.packetsRecv > 0 ∧ timeout > elapsed then
      (h.write g.success 1).write g.timeoutFlag 0
    else if timeout < elapsed then
      (h.write g.timeoutFlag 1).write g.success 0
    else if stats.packetsRecv = 0 then
      (h.write g.success 0).write g.timeoutFlag 0
    else h
  ((((((h1.write g.rttMin (seconds stats.minRtt)).write g.rttAvg
      (seconds stats.avgRtt)).write g.rttMax (seconds stats.maxRtt)).write
      g.rttStddev (stats.stdDevRtt : Rat)).write g.loss
      stats.packetLoss).write g.duration (seconds elapsed))

/-- Serving the registry: read the eight registered cells. -/
def serveRegistry (h : GaugeStore) (g : RegistryIds) : PingMetrics :=
  { success := h.val g.success, timeoutFlag := h.val g.timeoutFlag
    duration := h.val g.duration, rttMin := h.val g.rttMin
    rttMax := h.val g.rttMax, rttAvg := h.val g.rttAvg
    stddev := h.val g.rttStddev, loss := h.val g.loss }

/-- One `PingHandler` invocation over the gauge store: allocate the eight
fresh gauges and the registry, run the probe (invoking `OnFinish` when it
finishes), then serve the registry. Returns the store it leaves behind and
the served response. -/
def handleRequest (q : Query) (outcome : ProbeOutcome) (h : GaugeStore) :
    GaugeStore × PingMetrics :=
  let ar := h.allocGauges
  let h1 := ar.1
  let g := ar.2
  let p := parseParams q
  let h2 :=
    match outcome with
    | ProbeOutcome.error _ => h1
    | ProbeOutcome.finished stats elapsed => onFinishStore p.timeout stats elapsed g h1
  (h2, serveRegistry h2 g)

/-! ## Helper lemmas -/

/-- Reading a cell after a `Gauge.Set`. -/
theorem GaugeStore.val_write (h : GaugeStore) (i j : Nat) (x : Rat) :
    (h.write i x).val j = if j = i then x else h.val j := rfl

/-- Reading a cell after the eight gauge allocations. -/
theorem GaugeStore.val_alloc (h : GaugeStore) (j : Nat) :
    ((h.allocGauges).1).val j = if h.next ≤ j ∧ j < h.next + 8 then 0 else h.val j := rfl

/-- The ids handed out by the allocation. -/
theorem GaugeStore.allocIds (h : GaugeStore) :
    (h.allocGauges).2 = ⟨h.next, h.next + 1, h.next + 2, h.next + 3, h.next + 4,
      h.next + 5, h.next + 6, h.next + 7⟩ := rfl

/-- The served metrics of one invocation are the pure function of its own
query and probe outcome, whatever gauge store it starts from. -/
theorem handleRequest_metrics (q : Query) (o : ProbeOutcome) (h : GaugeStore) :
    (handleRequest q o h).2 = pingHandler q o := by
  cases o with
  | error e =>
    show serveRegistry (h.allocGauges).1 (h.allocGauges).2 = initMetrics
    unfold serveRegistry
    rw [GaugeStore.allocIds]
    dsimp only
    simp [GaugeStore.val_alloc, initMetrics]
  | finished st e =>
    show serveRegistry
        (onFinishStore (parseParams q).timeout st e (h.allocGauges).2 (h.allocGauges).1)
        (h.allocGauges).2 = onFinish (parseParams q).timeout st e initMetrics
    unfold onFinishStore onFinish serveRegistry
    rw [GaugeStore.allocIds]
    dsimp only
    split_ifs with h1 h2 h3 <;>
      simp [GaugeStore.val_write, GaugeStore.val_alloc, initMetrics]

/-- The invariants of a resolved descriptor that survive every loop step. -/
def GoodParams (p : pingParams) : Prop :=
  0 < p.count ∧ minPacketSize ≤ p.size ∧ p.size ≤ maxPacketSize ∧
    p.protocol ≠ "" ∧ p.packet ≠ ""

set_option maxHeartbeats 1000000 in
theorem parseParamsStep_good (acc : pingParams × List Diag) (entry : String × List String)
    (h : GoodParams acc.1) : GoodParams (parseParamsStep acc entry).1 := by
  obtain ⟨hc, hs1, hs2, hp, hk⟩ := h
  unfold parseParamsStep GoodParams
  dsimp only
  simp only [defaultCount, defaultSize, minPacketSize, maxPacketSize, defaultProtocol,
    defaultPacket] at *
  split_ifs <;>
    refine ⟨?_, ?_, ?_, ?_, ?_⟩ <;>
      dsimp only <;>
        first
          | assumption
          | omega
          | decide

theorem foldl_good (l : Query) (acc : pingParams × List Diag) (h : GoodParams acc.1) :
    GoodParams (l.foldl parseParamsStep acc).1 := by
  induction l generalizing acc with
  | nil => exact h
  | cons e t ih => exact ih _ (parseParamsStep_good acc e h)

theorem initial_good (q : Query) : GoodParams (initialParams q) := by
  unfold GoodParams initialParams
  dsimp only
  exact ⟨by decide, by decide, by decide, by decide, by decide⟩

/-- `Values.Get` reads only the first value stored under a key. -/
theorem valuesGet_firstValue (pre post : Query) (k key v : String) (rest : List String) :
    valuesGet (pre ++ (k, v :: rest) :: post) key = valuesGet (pre ++ (k, [v]) :: post) key := by
  induction pre with
  | nil =>
    unfold valuesGet
    by_cases hk : (k == key) = true
    · simp [List.find?, hk]
    · simp [List.find?, hk]
  | cons a t ih =>
    unfold valuesGet at ih ⊢
    by_cases ha : (a.1 == key) = true
    · simp [List.find?, ha]
    · simp only [List.cons_append, List.find?, ha]
      exact ih

/-- The size case of the loop, on a single-entry query. -/
theorem parseParamsAux_size (v : String) :
    parseParamsAux [("size", [v])] =
      (if (goAtoi v).2 = true ∧ (goAtoi v).1 ≤ maxPacketSize ∧ minPacketSize ≤ (goAtoi v).1
       then ({ initialParams [("size", [v])] with size := (goAtoi v).1 }, [])
       else ({ initialParams [("size", [v])] with size := defaultSize },
             [Diag.sizeWarn (goAtoi v).1])) := by
  show parseParamsStep (initialParams [("size", [v])], []) ("size", [v]) = _
  unfold parseParamsStep
  dsimp only [List.headD]
  rw [if_neg (by decide), if_neg (by decide), if_neg (by decide), if_neg (by decide),
      if_pos (by decide)]
  split_ifs <;> rfl

/-- The packet case of the loop: the resolved packet field is the
case-folded value, or the default on an empty value. -/
theorem parseParamsStep_packet (p : pingParams) (ds : List Diag) (k v : String)
    (hk : goToLower k = "packet") :
    (parseParamsStep (p, ds) (k, [v])).1.packet =
      if goToLower v = "" then defaultPacket else goToLower v := by
  unfold parseParamsStep
  dsimp only [List.headD]
  rw [hk]
  rw [if_neg (by decide), if_neg (by decide), if_neg (by decide), if_neg (by decide),
      if_neg (by decide), if_neg (by decide), if_neg (by decide), if_pos (by decide)]
  by_cases hv : goToLower v = ""
  · rw [if_neg (not_not_intro hv), if_pos hv]
  · rw [if_pos hv, if_neg hv]

/-- The protocol case of the loop (under either accepted key). -/
theorem parseParamsStep_protocol (p : pingParams) (ds : List Diag) (k v : String)
    (hk : goToLower k = "protocol" ∨ goToLower k = "prot") :
    (parseParamsStep (p, ds) (k, [v])).1.protocol =
      if goToLower v = "" then defaultProtocol else goToLower v := by
  unfold parseParamsStep
  dsimp only [List.headD]
  rcases hk with hk | hk <;>
    rw [hk] <;>
    rw [if_neg (by decide), if_neg (by decide), if_neg (by decide), if_neg (by decide),
        if_neg (by decide), if_neg (by decide), if_pos (by decide)] <;>
    · by_cases hv : goToLower v = ""
      · rw [if_neg (not_not_intro hv), if_pos hv]
      · rw [if_pos hv, if_neg hv]

/-! ## Claims -/

/-- Claim C1, counterexample: a completed probe with one packet received
and elapsed time exactly equal to the configured timeout (the boundary the
claim includes in success) is NOT classified as success — the guard is
strict (`pinger.Timeout > time.Since(start)`), no classification branch
fires, and the success gauge keeps its initial 0. -/
theorem success_at_timeout_boundary_counterexample :
    (Statistics.mk 1 1 0 0 0 0 0).packetsRecv = 1 ∧
    (parseParams []).timeout = 10000000000 ∧
    (pingHandler [] (ProbeOutcome.finished (Statistics.mk 1 1 0 0 0 0 0) 10000000000)).success
      = 0 ∧
    (pingHandler [] (ProbeOutcome.finished (Statistics.mk 1 1 0 0 0 0 0) 10000000000)).success
      ≠ 1 ∧
    (pingHandler [] (ProbeOutcome.finished (Statistics.mk 1 1 0 0 0 0 0) 10000000000)).timeoutFlag
      = 0 := by
  decide

/-- Claim C1, amended: a completed probe with at least one packet received
and elapsed time STRICTLY BELOW the configured timeout is classified as
success: success gauge 1, timeout gauge 0. -/
theorem success_requires_elapsed_below_timeout (q : Query) (st : Statistics) (e : Int)
    (hrecv : 0 < st.packetsRecv) (he : e < (parseParams q).timeout) :
    (pingHandler q (ProbeOutcome.finished st e)).success = 1 ∧
    (pingHandler q (ProbeOutcome.finished st e)).timeoutFlag = 0 := by
  unfold pingHandler onFinish
  dsimp only
  rw [if_pos ⟨hrecv, he⟩]
  exact ⟨rfl, rfl⟩

/-- Witness for C1 amended: one packet received, 9s elapsed, 10s timeout. -/
theorem success_requires_elapsed_below_timeout_witness :
    (pingHandler [] (ProbeOutcome.finished (Statistics.mk 1 1 0 0 0 0 0) 9000000000)).success
      = 1 ∧
    (pingHandler [] (ProbeOutcome.finished (Statistics.mk 1 1 0 0 0 0 0) 9000000000)).timeoutFlag
      = 0 :=
  success_requires_elapsed_below_timeout [] (Statistics.mk 1 1 0 0 0 0 0) 9000000000
    (by decide) (by decide)

/-- Claim C2: elapsed time strictly over the timeout classifies as timeout
(timeout gauge 1, success gauge 0) regardless of packets received — the
timeout branch precedes the zero-packets branch — and zero packets with
elapsed time not exceeding the timeout classifies as no-reply (both gauges
0). -/
theorem timeout_precedence_classification :
    (∀ (q : Query) (st : Statistics) (e : Int), (parseParams q).timeout < e →
        (pingHandler q (ProbeOutcome.finished st e)).timeoutFlag = 1 ∧
        (pingHandler q (ProbeOutcome.finished st e)).success = 0) ∧
    (∀ (q : Query) (st : Statistics) (e : Int),
        st.packetsRecv = 0 → e ≤ (parseParams q).timeout →
        (pingHandler q (ProbeOutcome.finished st e)).success = 0 ∧
        (pingHandler q (ProbeOutcome.finished st e)).timeoutFlag = 0) := by
  constructor
  · intro q st e h
    unfold pingHandler onFinish
    dsimp only
    split_ifs with h1
    · exfalso; omega
    · exact ⟨rfl, rfl⟩
  · intro q st e hrecv he
    unfold pingHandler onFinish
    dsimp only
    split_ifs with h1 h2
    · exfalso; omega
    · exfalso; omega
    · exact ⟨rfl, rfl⟩

/-- Witness for C2: a zero-packet probe at 20s elapsed against the default
10s timeout is a timeout; the same statistics at 5s elapsed are no-reply. -/
theorem timeout_precedence_classification_witness :
    ((pingHandler [] (ProbeOutcome.finished (Statistics.mk 5 0 100 0 0 0 0)
        20000000000)).timeoutFlag = 1 ∧
     (pingHandler [] (ProbeOutcome.finished (Statistics.mk 5 0 100 0 0 0 0)
        20000000000)).success = 0) ∧
    ((pingHandler [] (ProbeOutcome.finished (Statistics.mk 5 0 100 0 0 0 0)
        5000000000)).success = 0 ∧
     (pingHandler [] (ProbeOutcome.finished (Statistics.mk 5 0 100 0 0 0 0)
        5000000000)).timeoutFlag = 0) :=
  ⟨timeout_precedence_classification.1 [] (Statistics.mk 5 0 100 0 0 0 0) 20000000000
      (by decide),
   timeout_precedence_classification.2 [] (Statistics.mk 5 0 100 0 0 0 0) 5000000000
      (by decide) (by decide)⟩

/-- Claim C3, counterexample: the bounds are inclusive, not strict — the
input "24" (out of bounds per the claim) is kept verbatim with no warning;
and for the unparsable input "abc" the warning names 0 (the `int` returned
by `strconv.Atoi`), not the rejected input value. -/
theorem size_inclusive_bounds_counterexample :
    (parseParams [("size", ["24"])]).size = 24 ∧
    (24 : Int) ≠ defaultSize ∧
    parseParamsDiags [("size", ["24"])] = [] ∧
    parseParamsDiags [("size", ["abc"])] = [Diag.sizeWarn 0] := by
  decide

/-- Claim C3, amended: an unparsable `size` input, or one outside the
INCLUSIVE bounds [24, 65507], resolves to the default 56 and logs a warning
naming the integer `strconv.Atoi` returned (the parsed or clamped value, 0
when unparsable); every in-bounds integer input is kept verbatim with no
warning. -/
theorem size_out_of_range_resets_to_default :
    (∀ v : String, (goAtoi v).2 = true → minPacketSize ≤ (goAtoi v).1 →
        (goAtoi v).1 ≤ maxPacketSize →
        (parseParams [("size", [v])]).size = (goAtoi v).1 ∧
        parseParamsDiags [("size", [v])] = []) ∧
    (∀ v : String,
        ¬((goAtoi v).2 = true ∧ (goAtoi v).1 ≤ maxPacketSize ∧ minPacketSize ≤ (goAtoi v).1) →
        (parseParams [("size", [v])]).size = defaultSize ∧
        parseParamsDiags [("size", [v])] = [Diag.sizeWarn (goAtoi v).1]) := by
  constructor
  · intro v h1 h2 h3
    unfold parseParams parseParamsDiags
    rw [parseParamsAux_size, if_pos ⟨h1, h3, h2⟩]
    exact ⟨rfl, rfl⟩
  · intro v h
    unfold parseParams parseParamsDiags
    rw [parseParamsAux_size, if_neg h]
    exact ⟨rfl, rfl⟩

/-- Witness for C3 amended: "100" is kept; "70000" resolves to 56 with a
warning naming 70000. -/
theorem size_out_of_range_resets_to_default_witness :
    ((parseParams [("size", ["100"])]).size = (goAtoi "100").1 ∧
      parseParamsDiags [("size", ["100"])] = []) ∧
    ((parseParams [("size", ["70000"])]).size = defaultSize ∧
      parseParamsDiags [("size", ["70000"])] = [Diag.sizeWarn (goAtoi "70000").1]) :=
  ⟨size_out_of_range_resets_to_default.1 "100" (by decide) (by decide) (by decide),
   size_out_of_range_resets_to_default.2 "70000" (by decide)⟩

/-- Claim C4, counterexample: the resolver accepts any successfully parsed
duration, so `timeout=-5s` resolves to a negative timeout and
`interval=-2s` to a negative interval — the resolved timeout and interval
are NOT always strictly positive. -/
theorem parseParams_negative_timeout_counterexample :
    (parseParams [("timeout", ["-5s"])]).timeout = -5000000000 ∧
    ¬(0 < (parseParams [("timeout", ["-5s"])]).timeout) ∧
    (parseParams [("interval", ["-2s"])]).interval = -2000000000 ∧
    ¬(0 < (parseParams [("interval", ["-2s"])]).interval) := by
  decide

/-- Claim C4, amended: the resolver is total (it is a function on raw
queries) and every resolved descriptor satisfies the invariants the loop
maintains — count strictly positive, size within the inclusive packet-size
bounds, protocol and packet nonempty; timeout and interval however hold
whatever duration parsed, which may be zero or negative. -/
theorem parseParams_total_invariants (q : Query) :
    0 < (parseParams q).count ∧
    minPacketSize ≤ (parseParams q).size ∧ (parseParams q).size ≤ maxPacketSize ∧
    (parseParams q).protocol ≠ "" ∧ (parseParams q).packet ≠ "" :=
  foldl_good q (initialParams q, []) (initial_good q)

/-- Claim C5: privileged transport mode is on exactly when the resolved
packet field equals "icmp"; the packet field is the case-folded `packet`
query value, with empty or absent values mapping to the default "icmp". -/
theorem privileged_iff_packet_icmp :
    (∀ q : Query,
        (configurePinger (parseParams q)).privileged = true ↔
        (parseParams q).packet = "icmp") ∧
    (∀ k v : String, goToLower k = "packet" →
        (parseParams [(k, [v])]).packet =
          if goToLower v = "" then defaultPacket else goToLower v) ∧
    (parseParams []).packet = defaultPacket := by
  refine ⟨fun q => ?_, fun k v hk => ?_, rfl⟩
  · unfold configurePinger
    dsimp only
    split_ifs with h
    · simp [h]
    · simp [h]
  · exact parseParamsStep_packet (initialParams [(k, [v])]) [] k v hk

/-- Witness for C5: key "Packet" (case-insensitive) with value "UDP"
case-folds to "udp", so privileged mode is off. -/
theorem privileged_iff_packet_icmp_witness :
    ((parseParams [("Packet", ["UDP"])]).packet =
      if goToLower "UDP" = "" then defaultPacket else goToLower "UDP") ∧
    ((configurePinger (parseParams [("Packet", ["UDP"])])).privileged = true ↔
      (parseParams [("Packet", ["UDP"])]).packet = "icmp") :=
  ⟨privileged_iff_packet_icmp.2.1 "Packet" "UDP" (by decide),
   privileged_iff_packet_icmp.1 [("Packet", ["UDP"])]⟩

/-- Claim C6: a protocol value of "v6", "6" or "ip6" in any letter case,
under the key `protocol` or its alias `prot` (keys case-insensitive),
selects the ip6 network; every other value, including empty, and an absent
key select ip4. -/
theorem protocol_selects_ip6_aliases :
    (∀ k v : String, goToLower k = "protocol" ∨ goToLower k = "prot" →
        (configurePinger (parseParams [(k, [v])])).network =
          if goToLower v = "v6" ∨ goToLower v = "6" ∨ goToLower v = "ip6"
          then "ip6" else "ip4") ∧
    (configurePinger (parseParams [])).network = "ip4" := by
  refine ⟨fun k v hk => ?_, rfl⟩
  have hp : (parseParams [(k, [v])]).protocol =
      if goToLower v = "" then defaultProtocol else goToLower v :=
    parseParamsStep_protocol (initialParams [(k, [v])]) [] k v hk
  unfold configurePinger
  dsimp only
  rw [hp]
  by_cases hv : goToLower v = ""
  · rw [if_pos hv, if_neg (by decide :
      ¬(defaultProtocol = "v6" ∨ defaultProtocol = "6" ∨ defaultProtocol = "ip6"))]
    rw [if_neg (by rw [hv]; decide)]
  · rw [if_neg hv]

/-- Witness for C6: `PROT=V6` selects ip6; `protocol=udp` selects ip4. -/
theorem protocol_selects_ip6_aliases_witness :
    ((configurePinger (parseParams [("PROT", ["V6"])])).network =
      if goToLower "V6" = "v6" ∨ goToLower "V6" = "6" ∨ goToLower "V6" = "ip6"
      then "ip6" else "ip4") ∧
    ((configurePinger (parseParams [("protocol", ["udp"])])).network =
      if goToLower "udp" = "v6" ∨ goToLower "udp" = "6" ∨ goToLower "udp" = "ip6"
      then "ip6" else "ip4") :=
  ⟨protocol_selects_ip6_aliases.1 "PROT" "V6" (by decide),
   protocol_selects_ip6_aliases.1 "protocol" "udp" (by decide)⟩

/-- Claim C7: for every request and every probe outcome — including the
error outcome covering target resolution and probe construction/execution
failures — the handler serves the metrics page, never an HTTP error
status; on the error outcome the served metric set holds the zero-valued
statistics. -/
theorem handler_always_serves_metrics :
    (∀ (q : Query) (outcome : ProbeOutcome), ∃ m : PingMetrics,
        pingHandlerResponse q outcome = HttpResponse.metricsPage m ∧
        ∀ c : Nat, pingHandlerResponse q outcome ≠ HttpResponse.errorStatus c) ∧
    (∀ (q : Query) (e : Int),
        pingHandlerResponse q (ProbeOutcome.error e) = HttpResponse.metricsPage initMetrics) := by
  constructor
  · intro q o
    exact ⟨pingHandler q o, rfl, fun c hc => HttpResponse.noConfusion hc⟩
  · intro q e
    rfl

/-- Claim C8, counterexample: when `pinger.Run()` fails, `OnFinish` never
runs, so after 3 elapsed seconds the duration gauge still holds 0, not the
elapsed wall-clock time. -/
theorem duration_gauge_error_counterexample :
    (pingHandler [] (ProbeOutcome.error 3000000000)).duration = 0 ∧
    seconds 3000000000 = 3 ∧
    (pingHandler [] (ProbeOutcome.error 3000000000)).duration ≠ seconds 3000000000 := by
  have h3 : seconds 3000000000 = 3 := by
    unfold seconds
    norm_num
  refine ⟨rfl, h3, ?_⟩
  rw [h3, show (pingHandler [] (ProbeOutcome.error 3000000000)).duration = 0 from rfl]
  norm_num

/-- Claim C8, amended: for every COMPLETED probe — success, timeout or
no-reply alike — the duration gauge holds the elapsed wall-clock seconds
of the whole operation; on a probe error the gauge keeps its zero default. -/
theorem duration_gauge_on_completion :
    (∀ (q : Query) (st : Statistics) (e : Int),
        (pingHandler q (ProbeOutcome.finished st e)).duration = seconds e) ∧
    (∀ (q : Query) (e : Int),
        (pingHandler q (ProbeOutcome.error e)).duration = 0) :=
  ⟨fun _ _ _ => rfl, fun _ _ => rfl⟩

/-- Claim C9: each invocation allocates its own fresh gauges and registry
inside the handler, so the metrics either of two invocations serves are
the pure function of its own query and probe outcome — no gauge state
written by one request is observable in the other response, whatever gauge
store the process started with. -/
theorem requests_never_share_gauges (q1 q2 : Query) (o1 o2 : ProbeOutcome) (h : GaugeStore) :
    (handleRequest q2 o2 (handleRequest q1 o1 h).1).2 = pingHandler q2 o2 ∧
    (handleRequest q1 o1 h).2 = pingHandler q1 o1 :=
  ⟨handleRequest_metrics q2 o2 (handleRequest q1 o1 h).1, handleRequest_metrics q1 o1 h⟩

/-- Claim C10: whatever values beyond the first are supplied under a query
key, the resolver produces the same descriptor and the same diagnostics as
with the first value alone — both `Values.Get` and every loop case read
only `v[0]`. -/
theorem only_first_query_value_used (pre post : Query) (k v : String) (rest : List String) :
    parseParams (pre ++ (k, v :: rest) :: post) = parseParams (pre ++ (k, [v]) :: post) ∧
    parseParamsDiags (pre ++ (k, v :: rest) :: post) =
      parseParamsDiags (pre ++ (k, [v]) :: post) := by
  have haux : parseParamsAux (pre ++ (k, v :: rest) :: post) =
      parseParamsAux (pre ++ (k, [v]) :: post) := by
    unfold parseParamsAux
    have hinit : initialParams (pre ++ (k, v :: rest) :: post) =
        initialParams (pre ++ (k, [v]) :: post) := by
      unfold initialParams
      rw [valuesGet_firstValue]
    have hstep : ∀ A : pingParams × List Diag,
        parseParamsStep A (k, v :: rest) = parseParamsStep A (k, [v]) := fun A => rfl
    rw [hinit, List.foldl_append, List.foldl_append, List.foldl_cons, List.foldl_cons, hstep]
  exact ⟨congrArg Prod.fst haux, congrArg Prod.snd haux⟩

end PingExporter
